import Mathlib

/-!
Shallow embedding of the `python_monad` library (files
`src/python_monad/monad/monad_base.py`, `maybe.py`, `state_monad.py`,
`dict_tree.py`) together with theorems checking the repository's
specification claims against it.

Conventions used throughout:
* Python values relevant to the `Maybe` monad are embedded as the inductive
  `PVal`; Python callables are defunctionalized into `FCode` (only the
  closures actually built by the library's `apply` machinery are needed).
* Python exceptions are modelled with `Except String`; the string is the
  rendered exception text (e.g. `"TypeError: 'Maybe' object is not callable"`).
* Code that mutates objects in place is modelled twice: an immutable
  value-level semantics (`PVal` functions) for claims about results, and an
  explicit heap model (`Store`/`MVal`) for claims about object identity and
  in-place mutation.
* Machine-level details (reference cycles, `copy.copy` identity of the
  `_Nothing` sentinel) that no claim touches are, where noted, modelled
  structurally.
-/

/-! ## Values of the `Maybe` component (`maybe.py`, `monad_base.py`)

A `Maybe` instance is `PVal.maybeObj payload` (the object's `_value`
attribute).  The class sentinel `Maybe._Nothing` is `PVal.sentinel`.
Callables are `PVal.callable c` with `c : FCode` naming the closure. -/

mutual

inductive PVal where
  | int (n : Int)
  | sentinel
  | maybeObj (p : PVal)
  | callable (c : FCode)
deriving DecidableEq

inductive FCode where
  | addOne
  | callWith (a : PVal)
  | applyComposed (mf : PVal)
deriving DecidableEq

end

/-- Repeatedly unwrap nested `Maybe` payloads, as the `while` loop of
`Maybe._flatten_cls` does to an instance's `_value` attribute. -/
def strip : PVal → PVal
  | PVal.maybeObj p => strip p
  | v => v

/-- Test of `instance._value is Maybe._Nothing`, the body of
`Maybe.is_nothing`, applied to a payload. -/
def isNothingPayload : PVal → Bool
  | PVal.sentinel => true
  | _ => false

/-- Test of `Maybe.is_nothing` on a full instance. -/
def isNothingB : PVal → Bool
  | PVal.maybeObj p => isNothingPayload p
  | _ => false

/-- True iff the value is a `Maybe` instance (`isinstance(v, Maybe)`). -/
def isMaybeP : PVal → Bool
  | PVal.maybeObj _ => true
  | _ => false

/-- Payload (`_value` attribute) of a `Maybe` instance; identity on
non-instances (never used on those). -/
def payloadOf : PVal → PVal
  | PVal.maybeObj p => p
  | v => v

/-- Embedding of `Maybe.unit`: an already-wrapped value is rebuilt from a
copy of its inner payload and then flattened (`cls(copy.copy(value._value)).flatten()`);
anything else is wrapped directly (`cls(value)`).  `copy.copy` is modelled
structurally. -/
def Maybe.unitP : PVal → PVal
  | PVal.maybeObj p => PVal.maybeObj (strip p)
  | v => PVal.maybeObj v

/-- Embedding of the module-level `Just`: `Just(val)` is `Maybe(val)`,
i.e. the bare constructor, with no flattening (`maybe.py` line 52). -/
def JustP (v : PVal) : PVal := PVal.maybeObj v

/-- Embedding of `Maybe.Nothing()`, which is `Maybe.unit(Maybe._Nothing)`. -/
def NothingP : PVal := Maybe.unitP PVal.sentinel

/-- Effect of `Maybe._flatten_cls` on an instance, value-level: the payload
is unwrapped while it is itself a `Maybe`. -/
def flattenObj : PVal → PVal
  | PVal.maybeObj p => PVal.maybeObj (strip p)
  | v => v

/-- Interpreter for the defunctionalized closures, with fuel for the
call-depth (Python's recursion limit).  `FCode.addOne` is the sample plain
function `lambda x: x + 1`.  `FCode.callWith a` is the closure returned by
`call_with(a)` in `__init__.py`: it calls its argument on `a`.
`FCode.applyComposed mf` is the closure
`compose_unary(mf.bind, compose_unary(cls.unit, call_with))` built inside
`Monad.apply` (`monad_base.py` lines 193-199); applied to `arg` it computes
`mf.bind(cls.unit(call_with(arg)))`, and `mf.bind(func)` is inlined here as
`cls(func(mf._value))` (then flattened) per `Monad.bind` and
`Maybe._fmap_cls`.  Calling a non-callable raises `TypeError` with CPython's
message. -/
def evalFCode (fuel : Nat) (c : FCode) (arg : PVal) : Except String PVal :=
  match fuel, c with
  | _, FCode.addOne =>
      match arg with
      | PVal.int n => Except.ok (PVal.int (n + 1))
      | _ => Except.error "TypeError: unsupported operand type(s) for +"
  | 0, _ => Except.error "RecursionError: maximum recursion depth exceeded"
  | fuel' + 1, FCode.callWith a =>
      match arg with
      | PVal.callable c' => evalFCode fuel' c' a
      | PVal.int _ => Except.error "TypeError: 'int' object is not callable"
      | PVal.sentinel => Except.error "TypeError: 'object' object is not callable"
      | PVal.maybeObj _ => Except.error "TypeError: 'Maybe' object is not callable"
  | fuel' + 1, FCode.applyComposed mf =>
      match mf with
      | PVal.maybeObj p =>
          if isNothingPayload p then Except.ok NothingP
          else
            match (match Maybe.unitP (PVal.callable (FCode.callWith arg)) with
                   | PVal.callable c' => evalFCode fuel' c' p
                   | PVal.int _ => Except.error "TypeError: 'int' object is not callable"
                   | PVal.sentinel => Except.error "TypeError: 'object' object is not callable"
                   | PVal.maybeObj _ => Except.error "TypeError: 'Maybe' object is not callable") with
            | Except.ok r => Except.ok (flattenObj (PVal.maybeObj r))
            | Except.error e => Except.error e
      | _ => Except.error "AttributeError: 'object' object has no attribute 'bind'"

/-- Python call `callee(arg)` on an embedded value. -/
def pyCallF (fuel : Nat) (callee arg : PVal) : Except String PVal :=
  match callee with
  | PVal.callable c => evalFCode fuel c arg
  | PVal.int _ => Except.error "TypeError: 'int' object is not callable"
  | PVal.sentinel => Except.error "TypeError: 'object' object is not callable"
  | PVal.maybeObj _ => Except.error "TypeError: 'Maybe' object is not callable"

/-- Embedding of `Maybe._fmap_cls(func, instance)`: on a `Nothing` instance
it returns `cls.Nothing()` without touching `func`; otherwise it returns
`cls(func(instance.value))`. -/
def Maybe.fmapF (fuel : Nat) (func inst : PVal) : Except String PVal :=
  match inst with
  | PVal.maybeObj p =>
      if isNothingPayload p then Except.ok NothingP
      else
        match pyCallF fuel func p with
        | Except.ok r => Except.ok (PVal.maybeObj r)
        | Except.error e => Except.error e
  | _ => Except.error "AttributeError: 'object' object has no attribute 'is_nothing'"

/-- Embedding of `Monad.bind`: `result = self.fmap(func)` followed by
`cls._flatten_cls(result)`, returning `result`. -/
def Maybe.bindF (fuel : Nat) (inst func : PVal) : Except String PVal :=
  match Maybe.fmapF fuel func inst with
  | Except.ok r => Except.ok (flattenObj r)
  | Except.error e => Except.error e

/-- Embedding of `Monad.apply(monad_function, monad_instance)`
(`monad_base.py` lines 187-199):
`monad_instance.fmap(compose_unary(monad_function.bind, compose_unary(cls.unit, call_with))).flatten()`. -/
def Maybe.applyF (fuel : Nat) (mf mv : PVal) : Except String PVal :=
  match Maybe.fmapF fuel (PVal.callable (FCode.applyComposed mf)) mv with
  | Except.ok r => Except.ok (flattenObj r)
  | Except.error e => Except.error e

/-- Embedding of the `Maybe.value` property: the payload if the instance is
not `Nothing`, otherwise a fresh `Nothing()` (never an exception). -/
def Maybe.valueF : PVal → Except String PVal
  | PVal.maybeObj p => Except.ok (if isNothingPayload p then NothingP else p)
  | _ => Except.error "AttributeError: 'object' object has no attribute 'value'"

/-! ## `DictState` and `ContextMonad` (`state_monad.py`)

`DictState` is a `dict` subclass; dictionaries are embedded as ordered
association lists (Python dicts preserve insertion order and have unique
keys). -/

/-- Ordered association-list embedding of a `DictState` mapping. -/
abbrev DictState := List (String × Int)

/-- Dictionary key lookup (`d[k]` / `d.get(k)` presence). -/
def lookupD (d : DictState) (k : String) : Option Int :=
  (d.find? (fun p => p.1 == k)).map Prod.snd

/-- Embedding of `DictState.__add__`, which is `dict.__or__`: a new mapping
whose keys are the left operand's keys in order (values overridden by the
right operand where present) followed by the right operand's remaining keys
in their order.  The right (later) operand wins on conflicts, and neither
operand is modified. -/
def dunion (a b : DictState) : DictState :=
  a.map (fun p =>
    match lookupD b p.1 with
    | some v => (p.1, v)
    | none => p)
    ++ b.filter (fun p => (lookupD a p.1).isNone)

/-- Payload of a `ContextMonad` instance: either a plain wrapped value or a
nested `ContextMonad` (its own payload plus its `_state`). -/
inductive CPayload where
  | base (n : Int)
  | wrapped (p : CPayload) (s : DictState)
deriving DecidableEq

/-- Embedding of `ContextMonad._flatten_cls` acting on the
`(_value, _state)` pair: while the payload is itself a `ContextMonad`,
replace `_value` by the inner payload and add the inner `_state` on the
right (`instance._state += value._state`). -/
def ContextMonad.flattenCls : CPayload → DictState → CPayload × DictState
  | CPayload.wrapped p s1, s0 => ContextMonad.flattenCls p (dunion s0 s1)
  | p, s0 => (p, s0)

/-- Result of a Python attribute lookup on a `ContextMonad` instance. -/
inductive CtxAttr where
  | val (p : CPayload)
  | st (s : DictState)

/-- Attribute lookup on a `ContextMonad` instance.  `ContextMonad.__init__`
sets exactly the data attributes `_value` and `_state`
(`state_monad.py` lines 49-51), and no class in the method-resolution order
(`ContextMonad`, `Monad`, `ApplicativeFunctor`, `Functor`, `ABC`, `Generic`)
defines a `value` or `state` property — the `value` property exists only on
`Maybe`.  Any other attribute name therefore raises `AttributeError`. -/
def ContextMonad.getattr (m : CPayload × DictState) : String → Except String CtxAttr
  | "_value" => Except.ok (CtxAttr.val m.1)
  | "_state" => Except.ok (CtxAttr.st m.2)
  | name =>
      Except.error ("AttributeError: 'ContextMonad' object has no attribute '" ++ name ++ "'")

/-- Embedding of `ContextMonad._fmap_cls(func, instance)`
(`state_monad.py` lines 30-36), which evaluates
`cls(func(instance.value), instance.state)`: it reads the attributes
`value` and `state` (not `_value`/`_state`), so the attribute lookups go
through `ContextMonad.getattr`.  The success branch (unreachable, since the
first lookup raises) would apply `func` to the payload and rebuild. -/
def ContextMonad.fmapCls (f : Int → Int) (m : CPayload × DictState) :
    Except String (CPayload × DictState) :=
  match ContextMonad.getattr m "value" with
  | Except.error e => Except.error e
  | Except.ok a =>
      match ContextMonad.getattr m "state" with
      | Except.error e => Except.error e
      | Except.ok b =>
          match a, b with
          | CtxAttr.val (CPayload.base n), CtxAttr.st s => Except.ok (CPayload.base (f n), s)
          | _, _ => Except.error "TypeError: unsupported payload"

/-! ## The heap model for object identity (`Monad.flatten` / `bind` / `flattened`)

`monad_base.py`'s `flatten` mutates the receiver in place and returns
`self`; `flattened` first makes a shallow `copy.copy` and flattens the
copy; `bind` builds a fresh instance via `fmap` and flattens that fresh
instance.  To state these identity/framing facts, `Maybe` objects live in
an explicit store: an object is an index into a list of payloads. -/

/-- Payload of a `Maybe` object in the store: a plain value, the `_Nothing`
sentinel, or a reference to another `Maybe` object (a nested wrapper). -/
inductive MVal where
  | base (n : Int)
  | nothingSentinel
  | ref (r : Nat)
deriving DecidableEq

/-- Heap of `Maybe` objects; the object with identity `r` has payload
`s[r]?`. -/
abbrev Store := List MVal

/-- Allocate a fresh object with the given payload; returns the new store
and the new object's identity. -/
def allocS (s : Store) (v : MVal) : Store × Nat := (s ++ [v], s.length)

/-- Follow a chain of nested-wrapper references, as the `while` loop in
`Maybe._flatten_cls` does (it repeatedly replaces the payload by the inner
object's payload).  Fuel bounds the chain length; well-formed stores built
by the library are acyclic, with chains shorter than the store. -/
def chaseS (s : Store) : Nat → MVal → MVal
  | 0, v => v
  | fuel + 1, MVal.ref r =>
      match s[r]? with
      | some v => chaseS s fuel v
      | none => MVal.ref r
  | _ + 1, v => v

/-- Test of `Maybe.is_nothing` for the object `r` in the store. -/
def Maybe.isNothingS (s : Store) (r : Nat) : Bool :=
  s[r]? == some MVal.nothingSentinel

/-- Embedding of `Maybe._flatten_cls(instance)` in the store: only the
receiver's own payload cell is written. -/
def Maybe.flattenClsS (s : Store) (r : Nat) : Store :=
  match s[r]? with
  | some v => s.set r (chaseS s s.length v)
  | none => s

/-- Embedding of the method `Monad.flatten`: `cls._flatten_cls(self)` then
`return self` — the receiver itself is returned. -/
def Maybe.flattenM (s : Store) (r : Nat) : Store × Nat :=
  (Maybe.flattenClsS s r, r)

/-- Embedding of `Monad.flattened(instance)`: `result = copy.copy(instance)`
(a fresh object sharing the payload), then `cls._flatten_cls(result)`,
returning `result`; the original object is untouched. -/
def Maybe.flattenedM (s : Store) (r : Nat) : Store × Nat :=
  let copyv := (s[r]?).getD MVal.nothingSentinel
  let s1 := (allocS s copyv).1
  let rc := (allocS s copyv).2
  (Maybe.flattenClsS s1 rc, rc)

/-- Embedding of `Maybe._fmap_cls(func, instance)` in the store: a
`Nothing` receiver yields a freshly allocated `Nothing()`; otherwise `func`
runs (it may allocate) and its result is wrapped in a freshly allocated
instance (`cls(func(instance.value))`).  Either way the result is a new
object, never the receiver. -/
def Maybe.fmapM (func : Store → MVal → Store × MVal) (s : Store) (r : Nat) : Store × Nat :=
  if Maybe.isNothingS s r then allocS s MVal.nothingSentinel
  else
    let v := (s[r]?).getD MVal.nothingSentinel
    let s1 := (func s v).1
    let v1 := (func s v).2
    allocS s1 v1

/-- Embedding of `Monad.bind(self, func)`: `result = self.fmap(func)`,
`cls._flatten_cls(result)` (mutating only the fresh object), `return result`. -/
def Maybe.bindM (func : Store → MVal → Store × MVal) (s : Store) (r : Nat) : Store × Nat :=
  let r1 := (Maybe.fmapM func s r).2
  let s1 := (Maybe.fmapM func s r).1
  (Maybe.flattenClsS s1 r1, r1)

/-- Concrete monadic function for witnesses: `lambda x: Maybe(x)` — it
allocates a fresh `Maybe` wrapping its argument and returns a reference to
it. -/
def gUnit (s : Store) (v : MVal) : Store × MVal := (s ++ [v], MVal.ref s.length)

/-! ## `DictTree` (`dict_tree.py`)

A `DictTree` is a `dict` subclass whose values are leaves or child trees,
with parent back-references.  The tree reachable from the root is embedded
as the nested inductive `DTree`; a node is identified by its address (the
key path from the root), and — per the parent-invariant maintained by
`attach`/`__setitem__` — the `parent` of the node at a non-empty address is
the node at the address without its last key, while the root's parent is
`None`. -/

inductive DTree where
  | mk (entries : List (String × (Int ⊕ DTree))) : DTree

/-- Key-value pairs of the node, in insertion order. -/
def DTree.entries : DTree → List (String × (Int ⊕ DTree))
  | DTree.mk l => l

/-- Embedding of `node.get(part, None)` presence: the value stored under a
key, if any. -/
def DTree.get (t : DTree) (k : String) : Option (Int ⊕ DTree) :=
  (t.entries.find? (fun p => p.1 == k)).map Prod.snd

/-- Subtree of `t` at a key address, if every step goes through a child
tree. -/
def DTree.at? : DTree → List String → Option DTree
  | t, [] => some t
  | t, k :: rest =>
      match t.get k with
      | some (Sum.inr t2) => DTree.at? t2 rest
      | _ => none

/-- Embedding of `dict.__setitem__` on one node's entry list: replacement
in place for an existing key, append for a new one. -/
def assocSet (l : List (String × (Int ⊕ DTree))) (k : String) (v : Int ⊕ DTree) :
    List (String × (Int ⊕ DTree)) :=
  if l.any (fun p => p.1 == k) then
    l.map (fun p => if p.1 == k then (k, v) else p)
  else l ++ [(k, v)]

/-- Write `value` under key `k` of the node at address `addr` (the
`parent[path.name] = value` step of `set_at_path`); identity if the
address is broken (never happens for addresses produced by the walk). -/
def DTree.setAt : DTree → List String → String → (Int ⊕ DTree) → DTree
  | t, [], k, v => DTree.mk (assocSet t.entries k v)
  | t, a :: rest, k, v =>
      match t.get a with
      | some (Sum.inr t2) => DTree.mk (assocSet t.entries a (Sum.inr (DTree.setAt t2 rest k v)))
      | _ => t

/-- Current position of `_walk_path`: Python `None`, a leaf value, or a
tree node at the given address. -/
inductive WNode where
  | pynone
  | leaf (v : Int)
  | tnode (addr : List String)
deriving DecidableEq

/-- The `parent` back-reference of a node, by address: the root
(`addr = []`) has `parent = None`. -/
def nodeParent : List String → WNode
  | [] => WNode.pynone
  | a :: rest => WNode.tnode ((a :: rest).dropLast)

/-- Embedding of `node.get(part, None)` as a walk position: a missing key
gives `None`, a leaf value gives the leaf, a child tree gives its address. -/
def childAt (rootT : DTree) (addr : List String) (k : String) : WNode :=
  match DTree.at? rootT addr with
  | some t =>
      match t.get k with
      | none => WNode.pynone
      | some (Sum.inl v) => WNode.leaf v
      | some (Sum.inr _) => WNode.tnode (addr ++ [k])
  | none => WNode.pynone

/-- Join of path components as `PurePosixPath('').joinpath(*parts)` renders
them: a leading `"/"` component makes the result absolute, the remaining
components are separated by `/`, and no components at all print as `"."`. -/
def joinSegs : List String → String
  | [] => ""
  | [x] => x
  | x :: rest => x ++ "/" ++ joinSegs rest

/-- Rendering of a parts prefix for error messages (see `joinSegs`). -/
def joinPosix (parts : List String) : String :=
  match parts with
  | [] => "."
  | "/" :: rest => "/" ++ joinSegs rest
  | rest => joinSegs rest

/-- Message of the `KeyError` raised by `_walk_path` (`dict_tree.py`
lines 100-102). -/
def missingMsg (pfx key : String) : String :=
  "Child node at path " ++ pfx ++ " has no child with key " ++ key

/-- Message of the `ValueError` raised by `_walk_path` (`dict_tree.py`
lines 103-106). -/
def leafMsg (pfx : String) : String :=
  "Node at path " ++ pfx ++ " is a leaf"

/-- The segment loop of `DictTree._walk_path` (`dict_tree.py` lines 88-111),
returning the last yielded position or the raised exception.  `done` is the
list of parts already consumed (`path.parts[:i]`).  In order, per part:
skip the root marker; on a `None` position either raise `KeyError` (no
creation requested) or — faithfully to the source, which at that point
calls `node.attach(part)` / `node[part] = leaf` on the `None` it just
descended to — raise the corresponding `TypeError`/`AttributeError`; on a
leaf raise `ValueError`; on `".."` move to the parent; otherwise look the
part up as a key. -/
def walkGo (rootT : DTree) (pathRoot : String) (ensure : Bool) (factory : Option Int) :
    List String → List String → WNode → Except String WNode
  | _, [], node => Except.ok node
  | done, part :: rest, node =>
      if part = pathRoot then walkGo rootT pathRoot ensure factory (done ++ [part]) rest node
      else
        match node with
        | WNode.pynone =>
            if ensure then
              if rest.isEmpty && factory.isSome then
                Except.error "TypeError: 'NoneType' object does not support item assignment"
              else
                Except.error "AttributeError: 'NoneType' object has no attribute 'attach'"
            else Except.error (missingMsg (joinPosix done) part)
        | WNode.leaf _ => Except.error (leafMsg (joinPosix (done ++ [part])))
        | WNode.tnode addr =>
            walkGo rootT pathRoot ensure factory (done ++ [part])
              rest (if part = ".." then nodeParent addr else childAt rootT addr part)

/-- Embedding of `DictTree._walk_path` for a parsed path: parts are the
root marker (for an absolute path) followed by the segments; the walk
starts at `self` (address `selfAddr`) for a relative path and at
`self.root()` (address `[]`) for an absolute one. -/
def walkSegs (rootT : DTree) (selfAddr : List String) (abs : Bool) (segs : List String)
    (ensure : Bool) (factory : Option Int) : Except String WNode :=
  walkGo rootT (if abs then "/" else "") ensure factory []
    ((if abs then ["/"] else []) ++ segs)
    (WNode.tnode (if abs then [] else selfAddr))

/-- Split a string at `'/'` characters (accumulating the current component
in reverse), as `PurePosixPath` tokenizes a POSIX path string. -/
def splitOnSlash : List Char → List Char → List String
  | [], cur => [String.mk cur.reverse]
  | c :: rest, cur =>
      if c = '/' then String.mk cur.reverse :: splitOnSlash rest []
      else splitOnSlash rest (c :: cur)

/-- Parse of a path string into `PurePosixPath(path).parts` form: whether
the path is absolute, and its segments (empty components and `"."`
components are dropped by `PurePosixPath`). -/
def parsePath (s : String) : Bool × List String :=
  ((match s.data with | '/' :: _ => true | _ => false),
   (splitOnSlash s.data []).filter (fun p => !(p == "" || p == ".")))

/-- Embedding of `DictTree.get_at_path(path, ensure_exists)`
(`dict_tree.py` lines 69-72): `list(self._walk_path(path))[-1]`.  The
source accepts `ensure_exists` but does not forward it to `_walk_path`, so
the walk always runs with creation disabled and no leaf factory. -/
def getAtPath (rootT : DTree) (selfAddr : List String) (path : String)
    (ensureExistsArg : Bool) : Except String WNode :=
  walkSegs rootT selfAddr (parsePath path).1 (parsePath path).2 false none

/-- Embedding of `DictTree.set_at_path(path, value, ensure_parents_exist)`
(`dict_tree.py` lines 74-77): resolve `path.parent` via `get_at_path`
(forwarding `ensure_parents_exist`, which `get_at_path` then ignores) and
assign under `path.name`; assigning into `None` or a leaf raises
`TypeError`. -/
def setAtPath (rootT : DTree) (selfAddr : List String) (path : String)
    (value : Int ⊕ DTree) (ensureParents : Bool) : Except String DTree :=
  match walkSegs rootT selfAddr (parsePath path).1 (parsePath path).2.dropLast false none with
  | Except.error e => Except.error e
  | Except.ok (WNode.tnode addr) =>
      Except.ok (DTree.setAt rootT addr (((parsePath path).2.getLast?).getD "") value)
  | Except.ok WNode.pynone =>
      Except.error "TypeError: 'NoneType' object does not support item assignment"
  | Except.ok (WNode.leaf _) =>
      Except.error "TypeError: 'int' object does not support item assignment"

/-! ## Helper lemmas -/

/-- Flattening never leaves a `Maybe` instance as the payload. -/
theorem stripNotMaybe : ∀ p : PVal, isMaybeP (strip p) = false
  | PVal.maybeObj q => stripNotMaybe q
  | PVal.int _ => rfl
  | PVal.sentinel => rfl
  | PVal.callable _ => rfl

/-- Lookup in a consed association list. -/
theorem lookupD_cons (q : String × Int) (d : DictState) (k : String) :
    lookupD (q :: d) k = if q.1 = k then some q.2 else lookupD d k := by
  by_cases h : q.1 = k
  · simp [lookupD, List.find?_cons_of_pos, h]
  · simp [lookupD, List.find?_cons_of_neg, h]

/-- Lookup distributes over list append, preferring the left part. -/
theorem lookupD_append (x y : DictState) (k : String) :
    lookupD (x ++ y) k = (lookupD x k).or (lookupD y k) := by
  unfold lookupD
  rw [List.find?_append]
  cases hx : List.find? (fun p => p.1 == k) x <;>
    cases hy : List.find? (fun p => p.1 == k) y <;> simp [Option.or]

/-- Lookup in the overridden copy of the left operand of `dunion`. -/
theorem lookupD_map_override (b : DictState) :
    ∀ (a : DictState) (k : String),
      lookupD (a.map (fun p =>
          match lookupD b p.1 with
          | some v => (p.1, v)
          | none => p)) k
        = (lookupD a k).map (fun v => (lookupD b k).getD v) := by
  intro a
  induction a with
  | nil => intro k; rfl
  | cons q rest ih =>
      intro k
      by_cases h : q.1 = k
      · subst h
        rcases hb : lookupD b q.1 with _ | v <;>
          simp [List.map_cons, lookupD_cons, hb]
      · rcases hb : lookupD b q.1 with _ | v <;>
          simp [List.map_cons, lookupD_cons, hb, h, ih]

/-- Lookup in the filtered right operand of `dunion`. -/
theorem lookupD_filter_keep (a : DictState) :
    ∀ (b : DictState) (k : String),
      lookupD (b.filter (fun p => (lookupD a p.1).isNone)) k
        = if (lookupD a k).isNone then lookupD b k else none := by
  intro b
  induction b with
  | nil => intro k; simp [lookupD]
  | cons q rest ih =>
      intro k
      by_cases hq : (lookupD a q.1).isNone
      · rw [List.filter_cons_of_pos (by simpa using hq)]
        by_cases h : q.1 = k
        · subst h; simp [lookupD_cons, hq]
        · simp [lookupD_cons, h, ih]
      · rw [List.filter_cons_of_neg (by simpa using hq)]
        by_cases h : q.1 = k
        · subst h
          simp [lookupD_cons, ih, hq]
        · simp [lookupD_cons, h, ih]

/-- Lookup in a `dict` union: the right (later) operand wins on every key
it holds; otherwise the left operand's binding survives. -/
theorem lookupD_dunion (a b : DictState) (k : String) :
    lookupD (dunion a b) k = (lookupD b k).or (lookupD a k) := by
  unfold dunion
  rw [lookupD_append, lookupD_map_override, lookupD_filter_keep]
  rcases ha : lookupD a k with _ | va <;> rcases hb : lookupD b k with _ | vb <;>
    simp [Option.or]

/-! ## Claim theorems -/

/-- C1: the claim says `ContextMonad` `fmap` returns a new instance with
value `f(v)` and the state unchanged, raising no error.  The code instead
raises `AttributeError` on every call: `ContextMonad._fmap_cls` reads
`instance.value` and `instance.state`, but instances only carry `_value`
and `_state` and no `value`/`state` property exists anywhere in the class
hierarchy. -/
theorem c1_ctx_fmap_raises (f : Int → Int) (p : CPayload) (s : DictState) :
    ContextMonad.fmapCls f (p, s) =
      Except.error "AttributeError: 'ContextMonad' object has no attribute 'value'" := rfl

/-- C2: the claim says `set_at_path("/a/b", 42, ensure_parents_exist=True)`
on a tree without key `"a"` creates the intermediate node and stores the
value.  The code instead raises: `get_at_path` drops its `ensure_exists`
argument, so the parent directory resolves to `None` and the assignment
`parent["b"] = 42` raises `TypeError`; and even `_walk_path` called
directly with `ensure_exists=True` raises `AttributeError`, because its
creation branch calls `node.attach(part)` after `node` has already become
`None`. -/
theorem c2_set_at_path_raises :
    setAtPath (DTree.mk []) [] "/a/b" (Sum.inl 42) true =
      Except.error "TypeError: 'NoneType' object does not support item assignment"
    ∧ walkSegs (DTree.mk []) [] true ["a", "b"] true none =
      Except.error "AttributeError: 'NoneType' object has no attribute 'attach'" :=
  ⟨rfl, rfl⟩

/-- C3: the claim says `apply(unit(f), unit(x))` produces a wrapped result
equivalent to `unit(f(x))`.  The code instead raises `TypeError`:
`Monad.apply` composes `cls.unit` *before* `monad_function.bind`, so
`bind` receives the `Maybe`-wrapped caller `unit(call_with(x))` where it
expects a callable, and `Maybe._fmap_cls` then calls that `Maybe` instance
as a function. -/
theorem c3_apply_raises :
    Maybe.applyF 10 (Maybe.unitP (PVal.callable FCode.addOne)) (Maybe.unitP (PVal.int 5)) =
      Except.error "TypeError: 'Maybe' object is not callable" := rfl

/-- C4 counterexample: `Just` does not flatten.  For the already-wrapped
value `v = Maybe(5)`, `Just(v)` has payload `v` — itself a `Maybe`
instance — and differs from `Maybe.unit(v)`. -/
theorem c4_just_wraps_cex :
    isMaybeP (payloadOf (JustP (PVal.maybeObj (PVal.int 5)))) = true
    ∧ JustP (PVal.maybeObj (PVal.int 5)) ≠ Maybe.unitP (PVal.maybeObj (PVal.int 5)) := by
  exact ⟨rfl, by decide⟩

/-- C4 amended: `Maybe.unit` flattens — its result's payload is never a
`Maybe` instance — but `Just(v)` is the bare constructor `Maybe(v)`: it
double-wraps an already-wrapped `v`, and coincides with `unit(v)` only when
`v` is not a `Maybe` instance. -/
theorem c4_unit_flattens (v : PVal) :
    isMaybeP (payloadOf (Maybe.unitP v)) = false
    ∧ JustP v = PVal.maybeObj v
    ∧ (isMaybeP v = false → JustP v = Maybe.unitP v) := by
  refine ⟨?_, rfl, fun h => ?_⟩
  · cases v with
    | maybeObj p => exact stripNotMaybe p
    | int n => rfl
    | sentinel => rfl
    | callable c => rfl
  · cases v with
    | maybeObj p => simp [isMaybeP] at h
    | int n => rfl
    | sentinel => rfl
    | callable c => rfl

/-- C4 witness: for a plain value, `Just` and `unit` agree. -/
theorem c4_unit_flattens_witness : JustP (PVal.int 5) = Maybe.unitP (PVal.int 5) :=
  (c4_unit_flattens (PVal.int 5)).2.2 rfl

/-- C5: flattening a `ContextMonad` whose payload is a `ContextMonad` with
state `sIn` under outer state `sOut` collapses the nesting and accumulates
the state as `sOut + sIn` (outer first, then inner), and the dict-backed
`+` is a right-biased key union: the later operand's binding wins on every
key it holds, the earlier operand's binding survives otherwise. -/
theorem c5_flatten_state_accumulation (n : Int) (sIn sOut : DictState) :
    ContextMonad.flattenCls (CPayload.wrapped (CPayload.base n) sIn) sOut
      = (CPayload.base n, dunion sOut sIn)
    ∧ ∀ k, lookupD (dunion sOut sIn) k = (lookupD sIn k).or (lookupD sOut k) :=
  ⟨rfl, fun k => lookupD_dunion sOut sIn k⟩

/-- C7: `Nothing().fmap(f)` short-circuits to an absent `Maybe` without
invoking `f`: for every value `func` — callable or not — and any call-depth
budget, the result is `Nothing()` (so `f` cannot have been called, since
even an uncallable `func` raises nothing), and it satisfies `is_nothing()`. -/
theorem c7_nothing_fmap (func : PVal) (fuel : Nat) :
    Maybe.fmapF fuel func NothingP = Except.ok NothingP
    ∧ isNothingB NothingP = true :=
  ⟨rfl, rfl⟩

/-- C8: reading `.value` on an absent `Maybe` raises no error and returns
a fresh absent `Maybe` (which satisfies `is_nothing()`); on a present
`Maybe`, `.value` returns the payload. -/
theorem c8_value_accessor :
    Maybe.valueF NothingP = Except.ok NothingP
    ∧ isNothingB NothingP = true
    ∧ ∀ p : PVal, isNothingPayload p = false → Maybe.valueF (PVal.maybeObj p) = Except.ok p := by
  refine ⟨rfl, rfl, fun p h => ?_⟩
  simp [Maybe.valueF, h]

/-- C8 witness: `.value` on `Just(7)` is `7`. -/
theorem c8_value_accessor_witness :
    Maybe.valueF (PVal.maybeObj (PVal.int 7)) = Except.ok (PVal.int 7) :=
  c8_value_accessor.2.2 (PVal.int 7) rfl

/-- C10: on any root node (`parent` is `None`), `get_at_path("..")` raises
no error and returns `None`: a final `".."` segment resolves to the absent
parent. -/
theorem c10_root_dotdot (t : DTree) : getAtPath t [] ".." false = Except.ok WNode.pynone := rfl

/-- C6 counterexample: a missing *final* key does not raise.  On an empty
tree, `get_at_path("/missing")` returns `None` normally — the claim's
"intermediate or final key" is wrong for final keys. -/
theorem c6_missing_final_cex :
    getAtPath (DTree.mk []) [] "/missing" false = Except.ok WNode.pynone := rfl

/-- C6 amended: only when the missing key is followed by at least one more
segment does `get_at_path` (without creation) raise a missing-child
`KeyError`; its message names the failing prefix — which ends with, and so
names, the missing key — and reports the following segment as the absent
child key.  A missing final key instead resolves to `None` without error. -/
theorem c6_missing_intermediate (t : DTree) (a b : String)
    (ha1 : a ≠ "/") (ha2 : a ≠ "..") (hb : b ≠ "/") (hget : DTree.get t a = none) :
    walkSegs t [] true [a, b] false none = Except.error (missingMsg ("/" ++ a) b)
    ∧ walkSegs t [] true [a] false none = Except.ok WNode.pynone := by
  constructor
  · simp [walkSegs, walkGo, ha1, ha2, hb, childAt, DTree.at?, hget, joinPosix, joinSegs]
  · simp [walkSegs, walkGo, ha1, ha2, childAt, DTree.at?, hget]

/-- C6 witness: `get_at_path("/missing/x")` on an empty tree raises the
missing-child error whose message names `missing`. -/
theorem c6_missing_intermediate_witness :
    walkSegs (DTree.mk []) [] true ["missing", "x"] false none
      = Except.error (missingMsg ("/" ++ "missing") "x") :=
  (c6_missing_intermediate (DTree.mk []) "missing" "x" (by decide) (by decide) (by decide)
    rfl).1

/-- C9 counterexample: `bind` neither mutates nor returns the receiver.
Binding `lambda x: Maybe(x)` on the object `0` (payload `5`) returns a
different object (identity `2`), and object `0` still holds its original
payload afterwards. -/
theorem c9_bind_not_in_place_cex :
    (Maybe.bindM gUnit [MVal.base 5] 0).2 ≠ 0
    ∧ (Maybe.bindM gUnit [MVal.base 5] 0).1[0]? = some (MVal.base 5) := by
  exact ⟨by decide, by decide⟩

/-- C9 amended: `flatten` mutates in place — it returns the receiver
itself and writes no cell but the receiver's — and `flattened` copies
first, returning a fresh object and leaving the receiver's cell untouched;
but `bind` does not mutate or return the receiver: it builds a fresh
instance via `fmap` (flattening only that fresh instance) and returns it,
leaving the receiver's cell unchanged.  `func` is any monadic function
that, like every Python callable, can only allocate new objects, never
deallocate existing ones. -/
theorem c9_flatten_bind_identity (s : Store) (r : Nat)
    (func : Store → MVal → Store × MVal)
    (hr : r < s.length)
    (hmono : ∀ st v, ∃ ext, (func st v).1 = st ++ ext) :
    (Maybe.flattenM s r).2 = r
    ∧ (∀ x, x ≠ r → (Maybe.flattenM s r).1[x]? = s[x]?)
    ∧ (Maybe.flattenedM s r).2 ≠ r
    ∧ (Maybe.flattenedM s r).1[r]? = s[r]?
    ∧ (Maybe.bindM func s r).2 ≠ r
    ∧ (Maybe.bindM func s r).1[r]? = s[r]? := by
  have hrne : s.length ≠ r := by omega
  refine ⟨rfl, ?_, ?_, ?_, ?_, ?_⟩
  · intro x hx
    unfold Maybe.flattenM Maybe.flattenClsS
    cases h : s[r]? with
    | none => rfl
    | some v => simp [List.getElem?_set_ne (Ne.symm hx)]
  · simp [Maybe.flattenedM, allocS]
    omega
  · unfold Maybe.flattenedM Maybe.flattenClsS allocS
    simp [List.getElem?_concat_length, List.getElem?_set_ne hrne,
      List.getElem?_append_left hr]
  · by_cases hn : Maybe.isNothingS s r
    · simp [Maybe.bindM, Maybe.fmapM, hn, allocS]
      omega
    · obtain ⟨ext, hext⟩ := hmono s ((s[r]?).getD MVal.nothingSentinel)
      simp [Maybe.bindM, Maybe.fmapM, hn, allocS, hext]
      omega
  · by_cases hn : Maybe.isNothingS s r
    · simp [Maybe.bindM, Maybe.fmapM, hn, allocS, Maybe.flattenClsS,
        List.getElem?_concat_length, List.getElem?_set_ne hrne,
        List.getElem?_append_left hr]
    · obtain ⟨ext, hext⟩ := hmono s (s[r])
      have hr2 : r < (s ++ ext).length := by
        rw [List.length_append]; omega
      simp [Maybe.bindM, Maybe.fmapM, hn, allocS, Maybe.flattenClsS,
        List.getElem?_concat_length, List.getElem?_eq_getElem hr, hext,
        List.getElem?_append_left hr2, List.getElem?_append_left hr]

/-- C9 witness: on the store holding one object with payload `5`,
`flatten` returns the receiver, `bind` returns a different object. -/
theorem c9_flatten_bind_identity_witness :
    (Maybe.flattenM [MVal.base 5] 0).2 = 0
    ∧ (Maybe.bindM gUnit [MVal.base 5] 0).2 ≠ 0 := by
  have h := c9_flatten_bind_identity [MVal.base 5] 0 gUnit (by decide)
    (fun st v => ⟨[v], rfl⟩)
  exact ⟨h.1, h.2.2.2.2.1⟩
